import Mathlib

/-!
Verification development for `pdf2pptx.py`, a one-file converter from a
paginated PDF document to a PowerPoint slide deck (one slide per page,
page content as full-bleed background, link annotations as clickable
overlay rectangles).

The Python source is shallowly embedded below.  Conventions:

* Python float values are modelled as exact rationals (`ℚ`), with IEEE-754
  binary64 rounding applied where the source produces a float from exact
  data: `float(string)` and the int/float divisions producing the aspect
  ratio round to the nearest double via `roundToDouble` (round to nearest,
  ties to even, subnormals and overflow-to-infinity included).  The slide
  geometry itself is performed by the source in exact `fractions.Fraction`
  arithmetic after `limit_denominator` and needs no rounding.
* `int(x)` in Python truncates toward zero; this is `truncQ` below
  (`Int.tdiv` of numerator by denominator).
* Fallible code (uncaught Python exceptions, `exit(1)` paths) is modelled
  with `Except RunErr`.
* The behaviour of the library collaborators that the script drives
  (PyMuPDF/fitz, python-pptx, lxml child iteration, CPython
  `fractions.Fraction.limit_denominator` and `float()` parsing) is embedded
  from those libraries' documented semantics; each such definition carries a
  comment naming its origin.
-/

set_option maxRecDepth 100000

deriving instance DecidableEq for Except

namespace Pdf2Pptx

/-! ### Kernel-computable rational arithmetic

The standard `ℚ` operations of the ambient library are not reducible by
the kernel, so the embedding uses the wrappers below, all built on the
reducible `Rat.divInt`.  The `q*_eq` bridge lemmas identify them with the
standard field operations for the abstract proofs. -/

/-- Rational addition (kernel-computable). -/
def qadd (a b : ℚ) : ℚ :=
  Rat.divInt (a.num * b.den + b.num * a.den) (a.den * b.den)

/-- Rational multiplication (kernel-computable). -/
def qmul (a b : ℚ) : ℚ :=
  Rat.divInt (a.num * b.num) (a.den * b.den)

/-- Rational division (kernel-computable).  Division by zero yields `0`,
matching the ambient convention; every division the source performs is
either guarded or covered by nonzero hypotheses. -/
def qdiv (a b : ℚ) : ℚ :=
  Rat.divInt (a.num * b.den) (a.den * b.num)

/-- Rational subtraction (kernel-computable). -/
def qsub (a b : ℚ) : ℚ :=
  qadd a (-b)

/-- Python `min(a, b)` on rationals. -/
def qmin (a b : ℚ) : ℚ :=
  if a ≤ b then a else b

/-! ### Python integer truncation and `Fraction.limit_denominator` -/

/-- Python `int(x)` for a rational `x`: truncation toward zero. -/
def truncQ (q : ℚ) : ℤ :=
  Int.tdiv q.num q.den

/-- Continued-fraction loop of CPython `fractions.Fraction.limit_denominator`
(`while True: a = n//d; q2 = q0+a*q1; if q2 > max_denominator: break; ...`).
The `fuel` argument bounds the iteration count; it is called with
`fuel = d`, which suffices because the second argument of the Euclidean
pair strictly decreases every iteration.  Python `//` is floor division,
which for a positive divisor is `Int.ediv`. -/
def limitDenLoop (maxd : ℕ) :
    ℕ → ℤ × ℤ × ℤ × ℤ → ℤ → ℕ → ℤ × ℤ × ℤ × ℤ × ℤ × ℕ
  | 0, (p0, q0, p1, q1), n, d => (p0, q0, p1, q1, n, d)
  | fuel + 1, (p0, q0, p1, q1), n, d =>
    if d = 0 then (p0, q0, p1, q1, n, d)
    else
      let a : ℤ := Int.ediv n d
      let q2 : ℤ := q0 + a * q1
      if q2 > (maxd : ℤ) then (p0, q0, p1, q1, n, d)
      else limitDenLoop maxd fuel (p1, q1, p0 + a * p1, q2) d (Int.emod n d).toNat

/-- Absolute value of a rational, written as the source's `abs(...)`. -/
def qabs (x : ℚ) : ℚ :=
  if x < 0 then -x else x

/-- CPython `fractions.Fraction.limit_denominator(maxd)`: the closest
fraction with denominator at most `maxd`, via the continued-fraction
bounds `p1/q1` and `(p0+k*p1)/(q0+k*q1)`, preferring `p1/q1` on ties.
The source always calls it with `maxd = 100`. -/
def limitDenominator (x : ℚ) (maxd : ℕ) : ℚ :=
  if x.den ≤ maxd then x
  else
    let r := limitDenLoop maxd x.den (0, 1, 1, 0) x.num x.den
    let p0 := r.1
    let q0 := r.2.1
    let p1 := r.2.2.1
    let q1 := r.2.2.2.1
    let k : ℤ := Int.ediv ((maxd : ℤ) - q0) q1
    let bound1 : ℚ := Rat.divInt (p0 + k * p1) (q0 + k * q1)
    let bound2 : ℚ := Rat.divInt p1 q1
    if qabs (qsub bound2 x) ≤ qabs (qsub bound1 x) then bound2 else bound1

/-! ### Python `float()` literal parsing and the `^(\d+):(\d+)$` regex

The aspect-ratio option is parsed at source lines 178-190: first compared
with `"auto"`, then matched against the regex `^(\d+):(\d+)$`, and
otherwise handed to `float(...)`.  The definitions below embed CPython's
acceptance grammar for `float` on ASCII strings (whitespace-stripped sign,
`inf`/`infinity`/`nan` case-insensitively, or a digit string with optional
single underscores between digits, optional fractional part and optional
exponent).  Values are taken as exact decimal rationals. -/

/-- ASCII decimal digit (`\d` of the source regex, restricted to ASCII). -/
def isAsciiDigit (c : Char) : Bool :=
  decide ('0' ≤ c) && decide (c ≤ '9')

/-- Numeric value of an ASCII digit character. -/
def digitVal (c : Char) : ℕ :=
  c.toNat - 48

/-- Whitespace stripped by CPython `float()` on ASCII input:
space, `\t`, `\n`, `\v`, `\f`, `\r` (checked against CPython: control
characters `\x1c`-`\x1f` are rejected). -/
def pySpace (c : Char) : Bool :=
  c.toNat = 32 || (9 ≤ c.toNat && c.toNat ≤ 13)

/-- Consume a run of digits in which a single underscore may stand between
two digits (PEP 515).  Returns accumulated value, number of digits
consumed, and the rest of the input.  The caller guarantees the first
character is a digit. -/
def digitsULoop : List Char → ℕ → ℕ → ℕ × ℕ × List Char
  | [], v, n => (v, n, [])
  | [c], v, n =>
    if isAsciiDigit c then (10 * v + digitVal c, n + 1, []) else (v, n, [c])
  | c :: d :: rest, v, n =>
    if isAsciiDigit c then digitsULoop (d :: rest) (10 * v + digitVal c) (n + 1)
    else if c = '_' && isAsciiDigit d then digitsULoop rest (10 * v + digitVal d) (n + 1)
    else (v, n, c :: d :: rest)

/-- A digit group of a Python float literal: at least one leading digit,
underscores only between digits. -/
def parseDigitsU (l : List Char) : Option (ℕ × ℕ × List Char) :=
  match l with
  | c :: _ => if isAsciiDigit c then some (digitsULoop l 0 0) else none
  | [] => none

/-- Mantissa of a Python float literal: `digits [. [digits]]` or
`. digits`; at least one digit overall. -/
def parseMantissa (l : List Char) : Option (ℚ × List Char) :=
  match parseDigitsU l with
  | some (iv, _, rest) =>
    match rest with
    | '.' :: rest2 =>
      match parseDigitsU rest2 with
      | some (fv, fn, rest3) =>
        some (qadd (iv : ℚ) (qdiv (fv : ℚ) ((10 ^ fn : ℕ) : ℚ)), rest3)
      | none => some ((iv : ℚ), rest2)
    | _ => some ((iv : ℚ), rest)
  | none =>
    match l with
    | '.' :: rest2 =>
      match parseDigitsU rest2 with
      | some (fv, fn, rest3) => some (qdiv (fv : ℚ) ((10 ^ fn : ℕ) : ℚ), rest3)
      | none => none
    | _ => none

/-- Optional sign character; returns whether the value is negated. -/
def parseSignL : List Char → Bool × List Char
  | '+' :: r => (false, r)
  | '-' :: r => (true, r)
  | l => (false, l)

/-- Scale a mantissa by a decimal exponent. -/
def applyExp (m : ℚ) (e : ℤ) : ℚ :=
  if 0 ≤ e then qmul m ((10 ^ e.toNat : ℕ) : ℚ) else qdiv m ((10 ^ (-e).toNat : ℕ) : ℚ)

/-- Exponent part of a Python float literal: `(e|E) [sign] digits`. -/
def parseExp (l : List Char) : Option (ℤ × List Char) :=
  match l with
  | c :: rest =>
    if c = 'e' || c = 'E' then
      let s := parseSignL rest
      match parseDigitsU s.2 with
      | some (ev, _, rest3) => some ((if s.1 then -(ev : ℤ) else (ev : ℤ)), rest3)
      | none => none
    else none
  | [] => none

/-- A finite numeric Python float literal (after sign stripping): mantissa
followed by an optional exponent, consuming the whole input. -/
def pyNumeric (l : List Char) : Option ℚ :=
  match parseMantissa l with
  | some (m, rest) =>
    match rest with
    | [] => some m
    | _ =>
      match parseExp rest with
      | some (e, []) => some (applyExp m e)
      | _ => none
  | none => none

/-! ### IEEE-754 binary64 rounding

CPython's `float()` (and float division) is correctly rounded: the result
is the binary64 value nearest to the exact rational, ties to even.  The
definitions below compute that value exactly on `ℚ` (kernel-computable),
including subnormal underflow and overflow to infinity.  Cross-checked
against CPython `float.as_integer_ratio()` on representative inputs. -/

/-- Two to an integer power, as a rational (kernel-computable). -/
def pow2 (e : ℤ) : ℚ :=
  if 0 ≤ e then ((2 ^ e.toNat : ℕ) : ℚ) else qdiv 1 ((2 ^ (-e).toNat : ℕ) : ℚ)

/-- Floor of a rational (kernel-computable; `Int.ediv` floors for the
positive denominator). -/
def qfloor (x : ℚ) : ℤ :=
  Int.ediv x.num x.den

/-- Nearest integer to a rational, ties to even. -/
def roundHalfEven (x : ℚ) : ℤ :=
  let f := qfloor x
  let r := qsub x ((f : ℤ) : ℚ)
  if r < Rat.divInt 1 2 then f
  else if Rat.divInt 1 2 < r then f + 1
  else if Int.emod f 2 = 0 then f else f + 1

/-- Fuel-based `⌊log2⌋` on naturals (kernel-computable; the fuel `n`
itself bounds the halving count). -/
def log2Loop : ℕ → ℕ → ℕ
  | 0, _ => 0
  | fuel + 1, n => if n ≤ 1 then 0 else log2Loop fuel (n / 2) + 1

/-- `⌊log2 n⌋` for `n ≥ 1` (0 at 0). -/
def nlog2 (n : ℕ) : ℕ :=
  log2Loop n n

/-- Floor of the base-2 logarithm of a positive rational: from the bit
lengths of numerator and denominator the value is `e0` or `e0 - 1`. -/
def floorLog2 (q : ℚ) : ℤ :=
  let e0 : ℤ := (nlog2 q.num.natAbs : ℤ) - (nlog2 q.den : ℤ)
  if q < pow2 e0 then e0 - 1 else e0

/-- Round a positive rational to the nearest binary64 value (ties to
even): clamp the exponent at the subnormal boundary `-1022`, round the
scaled significand to an integer, and detect overflow (a result of
magnitude `≥ 2^1024` becomes an infinity, reported as `none`). -/
def roundPosToDouble (q : ℚ) : Option ℚ :=
  let e := max (floorLog2 q) (-1022)
  let m := roundHalfEven (qmul q (pow2 (52 - e)))
  let v := qmul ((m : ℤ) : ℚ) (pow2 (e - 52))
  if pow2 1024 ≤ v then none else some v

/-- Round any rational to the nearest binary64 value; `none` models an
infinite result. -/
def roundToDouble (q : ℚ) : Option ℚ :=
  if q = 0 then some 0
  else if 0 < q then roundPosToDouble q
  else (roundPosToDouble (-q)).map (fun v => -v)

/-- CPython `float(s)` on an ASCII string: `none` models `ValueError`,
`some none` models an infinite or NaN result (which the script then feeds
to `fractions.Fraction`, raising there), `some (some v)` a finite value —
the exact decimal rational rounded to the nearest binary64 value. -/
def pyFloatParse (s : String) : Option (Option ℚ) :=
  let l := ((s.data.dropWhile pySpace).reverse.dropWhile pySpace).reverse
  let sg := parseSignL l
  let low := sg.2.map Char.toLower
  if low = ['i', 'n', 'f'] || low = ['i', 'n', 'f', 'i', 'n', 'i', 't', 'y'] ||
      low = ['n', 'a', 'n'] then
    some none
  else
    match pyNumeric sg.2 with
    | some v =>
      match roundToDouble v with
      | some d => some (some (if sg.1 then -d else d))
      | none => some none
    | none => none

/-- Numeric value of an ASCII digit string. -/
def digitsVal (l : List Char) : ℕ :=
  l.foldl (fun a c => 10 * a + digitVal c) 0

/-- The source regex `^(\d+):(\d+)$` matched with `re.match` (line 181),
on ASCII strings: `$` (without `re.MULTILINE`) matches at the end of the
string or just before one trailing newline, so a single trailing `'\n'`
is stripped; then exactly one colon with nonempty digit strings on both
sides.  Returns the two captured integers.  Note the regex accepts zero
components such as `"16:0"`.  (`\d` also matches non-ASCII Unicode
decimal digits; the theorems quantifying over specs therefore restrict
them to ASCII.) -/
def matchWH (s : String) : Option (ℕ × ℕ) :=
  let l := if s.data.getLast? = some '\n' then s.data.dropLast else s.data
  match l.splitOn ':' with
  | [a, b] =>
    if a ≠ [] && b ≠ [] && a.all isAsciiDigit && b.all isAsciiDigit then
      some (digitsVal a, digitsVal b)
    else none
  | _ => none

/-! ### Link extraction: `extract_link` (source lines 15-80) -/

/-- PyMuPDF link kind constant `fitz.LINK_GOTO`. -/
def LINK_GOTO : ℕ := 1

/-- PyMuPDF link kind constant `fitz.LINK_URI`. -/
def LINK_URI : ℕ := 2

/-- PyMuPDF link kind constant `fitz.LINK_NAMED`. -/
def LINK_NAMED : ℕ := 4

/-- PyMuPDF link kind constant `fitz.LINK_GOTOR`. -/
def LINK_GOTOR : ℕ := 5

/-- A rectangle, as four coordinates. -/
structure PRect where
  x0 : ℚ
  y0 : ℚ
  x1 : ℚ
  y1 : ℚ
  deriving DecidableEq

/-- One raw link annotation record as enumerated by fitz
`page.get_links()`: the kind tag, the `from` rectangle in page
coordinates, and the kind-specific fields the source reads.  `uri` is read
by direct indexing (always present on URI links); `file` and `page` are
read through `.get` with defaults, hence optional here. -/
structure RawLink where
  kind : ℕ
  fromRect : PRect
  uri : String
  file : Option String
  page : Option ℤ
  deriving DecidableEq

/-- A PDF page as the source consumes it: 0-based `number`, the
`page.rect` width and height, and the raw link annotations in enumeration
order. -/
structure Page where
  number : ℕ
  width : ℚ
  height : ℚ
  links : List RawLink
  deriving DecidableEq

/-- Target payload of an extracted link: a string (URI or remote
reference) or a 0-based page index. -/
inductive LinkTarget where
  | str (s : String)
  | page (p : ℤ)
  deriving DecidableEq

/-- One tuple appended to `links_info` by `extract_link`: the type tag
(`"uri"`, `"goto"` or `"gotor"`, exactly the source's strings), the
target, and the normalized rectangle. -/
structure LinkInfo where
  type : String
  target : LinkTarget
  rect : PRect
  deriving DecidableEq

/-- The rectangle normalization performed inline in every branch of
`extract_link`: each coordinate divided by the page width or height. -/
def normRect (r : PRect) (w h : ℚ) : PRect :=
  ⟨qdiv r.x0 w, qdiv r.y0 h, qdiv r.x1 w, qdiv r.y1 h⟩

/-- Classification of a single raw link by `extract_link`'s
`if`/`elif` chain: returns the tuple appended to `links_info` (if any) and
the warning emitted (if any).  Mirrors source lines 18-79:
URI links always retained; GOTO retained when the target page is `≥ 0`;
GOTOR always retained, with `file` defaulted to the empty string and a
`"#page="` suffix exactly when the target page is `≥ 0`; NAMED retained
when the target page is `≥ 0` and differs from the current page (silently
dropped otherwise); any other kind dropped with a warning. -/
def classifyLink (pageNumber : ℕ) (w h : ℚ) (l : RawLink) :
    Option LinkInfo × Option String :=
  if l.kind = LINK_URI then
    (some ⟨"uri", LinkTarget.str l.uri, normRect l.fromRect w h⟩, none)
  else if l.kind = LINK_GOTO then
    let targetPage := l.page.getD (-1)
    if 0 ≤ targetPage then
      (some ⟨"goto", LinkTarget.page targetPage, normRect l.fromRect w h⟩, none)
    else (none, none)
  else if l.kind = LINK_GOTOR then
    let file := l.file.getD ""
    let targetPage := l.page.getD (-1)
    let uri := if 0 ≤ targetPage then file ++ "#page=" ++ toString (targetPage + 1) else file
    (some ⟨"gotor", LinkTarget.str uri, normRect l.fromRect w h⟩, none)
  else if l.kind = LINK_NAMED then
    let targetPage := l.page.getD (-1)
    if 0 ≤ targetPage ∧ targetPage ≠ (pageNumber : ℤ) then
      (some ⟨"goto", LinkTarget.page targetPage, normRect l.fromRect w h⟩, none)
    else (none, none)
  else
    (none, some ("Unsupported link kind: " ++ toString l.kind ++ ", in page " ++
      toString pageNumber))

/-- The `extract_link` function (source lines 15-80): the ordered list of
retained link tuples, and the warnings emitted along the way. -/
def extractLink (p : Page) : List LinkInfo × List String :=
  (p.links.filterMap (fun l => (classifyLink p.number p.width p.height l).1),
   p.links.filterMap (fun l => (classifyLink p.number p.width p.height l).2))

/-! ### Slide shapes and composition (source lines 210-261 and 83-104)

The slide-deck collaborator (python-pptx) is embedded as a list of shapes
per slide.  `add_slide(layout)` clones the layout's placeholders into the
new slide; the default template's layout 0 ("Title Slide") supplies a
title and a subtitle placeholder, both carrying text frames.  The
placeholder-removal loop at source lines 233-235 / 248-250 iterates the
slide's shapes while removing the current element from the underlying
`lxml` tree; `lxml` child iterators fetch the next sibling before
yielding the current one, so removing the yielded element does not skip
its successor and the loop is exactly a filter. -/

/-- A shape on a slide: a placeholder cloned from the template layout, the
inserted background picture, or a hyperlink overlay rectangle added by
`add_hyperlink`. -/
inductive Shape where
  | placeholder (hasTF : Bool)
  | picture
  | overlay (link : LinkInfo)
  deriving DecidableEq

/-- The `shape.has_text_frame` attribute: placeholders report the flag
they carry; pictures have no text frame; overlay autoshape rectangles
carry one. -/
def Shape.hasTextFrame : Shape → Bool
  | .placeholder tf => tf
  | .picture => false
  | .overlay _ => true

/-- Whether the shape is a placeholder supplied by the template. -/
def Shape.isPlaceholder : Shape → Bool
  | .placeholder _ => true
  | _ => false

/-- The placeholder-removal loop (source lines 233-235 / 248-250): every
shape with a text frame is removed from the slide. -/
def removeTextFrameShapes (shapes : List Shape) : List Shape :=
  shapes.filter (fun s => !s.hasTextFrame)

/-- Per-page slide composition (source lines 232-261): remove text-frame
shapes from the pre-allocated template slide, insert the rendered page
visual as the background picture, then add one overlay shape per
extracted link via `add_hyperlink`. -/
def composeSlide (template : List Shape) (links : List LinkInfo) : List Shape :=
  removeTextFrameShapes template ++ [Shape.picture] ++ links.map Shape.overlay

/-- The shapes `prs.slides.add_slide(layout)` pre-populates a slide with,
for the default python-pptx template's layout 0 ("Title Slide", source
line 175): a title and a subtitle placeholder, both with text frames. -/
def defaultTemplateShapes : List Shape :=
  [Shape.placeholder true, Shape.placeholder true]

/-- The fully composed slide for one page. -/
def composedSlide (p : Page) : List Shape :=
  composeSlide defaultTemplateShapes (extractLink p).1

/-! ### Aspect-ratio resolution and slide geometry (source lines 174-208) -/

/-- Every way a run can abort with exit status 1: the explicit
`exit(1)` paths of the source and the uncaught Python exceptions
(which also terminate the interpreter with status 1). -/
inductive RunErr where
  | inputNotFound
  | externalToolUnavailable
  | emptyDocument
  | zeroDivisionError
  | nonFiniteRatio
  | invalidAspectRatioFormat
  | nonPositiveAspectRatio
  | externalToolInvocationFailure
  deriving DecidableEq

/-- Aspect-ratio resolution, source lines 178-201, given the first page's
`rect.width`/`rect.height` (the binary64 values PyMuPDF reports).
Returns the bounded rational ratio after `limit_denominator(100)`
together with whether the non-fatal mismatch warning fired.  Every float
the source computes here is rounded: `rect.width / rect.height` (lines
179 and 192) and `int(W) / int(H)` (line 183) are correctly rounded
binary64 divisions, modelled with `roundToDouble`.  Failure modes: the
message-and-`exit(1)` paths (`invalidAspectRatioFormat` at lines 188-190,
`nonPositiveAspectRatio` at lines 198-200) and the uncaught exceptions —
`ZeroDivisionError` from `W/H` with `H = 0` (line 183) or from a zero
page height in the float divisions, and `nonFiniteRatio` for an infinite
or NaN float reaching `fractions.Fraction` (raising
`OverflowError`/`ValueError` at line 191 or 197) or an int division
overflowing to a float at line 183. -/
def resolveAspect (spec : String) (pw ph : ℚ) : Except RunErr (ℚ × Bool) :=
  if spec = "auto" then
    if ph = 0 then Except.error RunErr.zeroDivisionError
    else
      match roundToDouble (qdiv pw ph) with
      | none => Except.error RunErr.nonFiniteRatio
      | some v =>
        let q := limitDenominator v 100
        if q ≤ 0 then Except.error RunErr.nonPositiveAspectRatio
        else Except.ok (q, false)
  else
    let parsed : Except RunErr ℚ :=
      match matchWH spec with
      | some (w, h) =>
        if h = 0 then Except.error RunErr.zeroDivisionError
        else
          match roundToDouble (qdiv (w : ℚ) (h : ℚ)) with
          | some v => Except.ok v
          | none => Except.error RunErr.nonFiniteRatio
      | none =>
        match pyFloatParse spec with
        | some (some v) => Except.ok v
        | some none => Except.error RunErr.nonFiniteRatio
        | none => Except.error RunErr.invalidAspectRatioFormat
    match parsed with
    | Except.error e => Except.error e
    | Except.ok v =>
      if ph = 0 then Except.error RunErr.zeroDivisionError
      else
        match roundToDouble (qdiv pw ph) with
        | none => Except.error RunErr.nonFiniteRatio
        | some pr =>
          let warn := decide (limitDenominator v 100 ≠ limitDenominator pr 100)
          let q := limitDenominator v 100
          if q ≤ 0 then Except.error RunErr.nonPositiveAspectRatio
          else Except.ok (q, warn)

/-- Source line 203: `max_width = 9144000`. -/
def maxWidthEmu : ℚ := 9144000

/-- Source line 204: `max_height = 5143500`. -/
def maxHeightEmu : ℚ := 5143500

/-- Source line 205: `optimal_width = min(max_width, aspect_ratio * max_height)`,
exact `fractions.Fraction` arithmetic (the ratio is a `Fraction` here). -/
def optimalWidthQ (q : ℚ) : ℚ :=
  qmin maxWidthEmu (qmul q maxHeightEmu)

/-- Source line 207: `prs.slide_width = int(optimal_width)`. -/
def slideWidth (q : ℚ) : ℤ :=
  truncQ (optimalWidthQ q)

/-- Source lines 206/208: `optimal_height = optimal_width / aspect_ratio`
(computed from the untruncated width) and
`prs.slide_height = int(optimal_height)`. -/
def slideHeight (q : ℚ) : ℤ :=
  truncQ (qdiv (optimalWidthQ q) q)

/-! ### The whole run (source lines 106-263) -/

/-- The immutable run configuration extracted from the parsed command
line: whether the input path exists, the resolved output path, the
`-svg` flag, the aspect-ratio spec string and the `--inkscape-path`
value.  (`--dpi` only parameterizes rasterization and is not observed by
any modelled claim.) -/
structure Config where
  inputExists : Bool
  output : String
  svg : Bool
  aspectRatio : String
  inkscapePath : String

/-- The source document: its ordered pages.  `pdf.page_count` is the list
length and `pdf.load_page(i)` returns the `i`-th entry; on an empty
document `load_page(0)` raises (PyMuPDF `ValueError: page not in
document`). -/
structure Doc where
  pages : List Page

/-- The external world the run observes: the exit status of the
`inkscape --version` pre-flight probe, the per-page exit status of the
conversion process, and the OS-chosen scoped temporary file names per
page index. -/
structure Ext where
  probeExit : ℤ
  convertExit : ℕ → ℤ
  svgName : ℕ → String
  emfName : ℕ → String

/-- The pre-flight probe command (source lines 162-166):
`[inkscape_path, "--version"]` — the configured executable. -/
def preflightCmd (inkscapePath : String) : List String :=
  [inkscapePath, "--version"]

/-- The per-page conversion command (source lines 222-231): note the
hard-coded literal `"inkscape"` in the source, not the configured
`--inkscape-path` value. -/
def pageConvertCmd (svgPath emfPath : String) : List String :=
  ["inkscape", svgPath, "--export-type=emf", "--export-filename", emfPath]

/-- The per-page loop (source lines 213-261), processing the pages from
index `i` on: in vector mode each page invokes the conversion process
(`subprocess.run(..., check=True)` raises `CalledProcessError` on a
non-zero exit, aborting the run), then the pre-allocated slide is
composed.  Returns the composed slides and the recorded external
invocations. -/
def runPages (svg : Bool) (ext : Ext) :
    ℕ → List Page → Except RunErr (List (List Shape) × List (List String))
  | _, [] => Except.ok ([], [])
  | i, p :: rest =>
    if svg = true ∧ ext.convertExit i ≠ 0 then
      Except.error RunErr.externalToolInvocationFailure
    else
      match runPages svg ext (i + 1) rest with
      | Except.error e => Except.error e
      | Except.ok (slides, invs) =>
        Except.ok (composedSlide p :: slides,
          (if svg = true then [pageConvertCmd (ext.svgName i) (ext.emfName i)] else []) ++ invs)

/-- The observable outcome of a successful run: slide dimensions, the
composed slides in page order, every external process invocation in
order, the destination paths written (`prs.save`, source line 263, the
only write — performed once, after the loop), and whether the mismatch
warning fired. -/
structure RunOutput where
  slideW : ℤ
  slideH : ℤ
  slides : List (List Shape)
  invocations : List (List String)
  writes : List String
  warned : Bool
  deriving DecidableEq

/-- The `__main__` run (source lines 106-263): input-existence check
(151-153), vector-mode pre-flight probe (160-172), `load_page(0)` for
geometry (177, raising on an empty document), aspect-ratio resolution
(178-201), slide geometry (203-208), slide pre-allocation and the
per-page loop (210-261), and the single save at the end (263).  Any
error aborts the run before the save, so an error outcome carries no
write. -/
def run (cfg : Config) (doc : Doc) (ext : Ext) : Except RunErr RunOutput :=
  if cfg.inputExists = false then Except.error RunErr.inputNotFound
  else if cfg.svg = true ∧ ext.probeExit ≠ 0 then
    Except.error RunErr.externalToolUnavailable
  else
    match doc.pages.head? with
    | none => Except.error RunErr.emptyDocument
    | some p0 =>
      match resolveAspect cfg.aspectRatio p0.width p0.height with
      | Except.error e => Except.error e
      | Except.ok (q, warn) =>
        match runPages cfg.svg ext 0 doc.pages with
        | Except.error e => Except.error e
        | Except.ok (slides, invs) =>
          Except.ok
            { slideW := slideWidth q
              slideH := slideHeight q
              slides := slides
              invocations :=
                (if cfg.svg = true then [preflightCmd cfg.inkscapePath] else []) ++ invs
              writes := [cfg.output]
              warned := warn }

/-- Whether an `Except` value is a success, as a Boolean. -/
def exceptIsOk {ε α : Type} : Except ε α → Bool
  | Except.ok _ => true
  | Except.error _ => false

/-! ### Concrete instances used by witnesses and counterexamples -/

/-- A page with no links and a square page rectangle. -/
def plainPage : Page := ⟨0, 1, 1, []⟩

/-- External world in which every process exits successfully. -/
def okExt : Ext := ⟨0, fun _ => 0, fun _ => "page.svg", fun _ => "page.emf"⟩

/-- Raster-mode configuration with automatic aspect ratio (claim C1). -/
def c1Cfg : Config := ⟨true, "out.pptx", false, "auto", "inkscape"⟩

/-- A two-page document (claim C1). -/
def c1Doc : Doc := ⟨[⟨0, 1, 1, []⟩, ⟨1, 1, 1, []⟩]⟩

/-- The output the run produces on `c1Doc` (claim C1). -/
def c1Out : RunOutput :=
  ⟨5143500, 5143500, [[Shape.picture], [Shape.picture]], [], ["out.pptx"], false⟩

/-- A zero-page document (claim C1). -/
def c1EmptyDoc : Doc := ⟨[]⟩

/-- Vector-mode configuration with a non-default tool path (claim C2). -/
def c2Cfg : Config := ⟨true, "deck.pptx", true, "auto", "/opt/inkscape/bin/inkscape"⟩

/-- A one-page document (claim C2). -/
def c2Doc : Doc := ⟨[plainPage]⟩

/-- Raster-mode configuration with aspect-ratio spec `"16:0"` (claim C3). -/
def c3Cfg : Config := ⟨true, "deck.pptx", false, "16:0", "inkscape"⟩

/-- Raster-mode configuration with aspect-ratio spec `"abc"` (claim C3). -/
def c3wCfg : Config := ⟨true, "deck.pptx", false, "abc", "inkscape"⟩

/-- A one-page document (claim C3). -/
def c3Doc : Doc := ⟨[plainPage]⟩

/-- A page whose only link annotation has an in-bounds rectangle
(claim C5 witness). -/
def c5InPage : Page :=
  ⟨0, 200, 100, [⟨LINK_URI, ⟨10, 5, 60, 25⟩, "https://a", none, none⟩]⟩

/-- A page whose only link annotation sticks out horizontally beyond the
page rectangle (claim C5 counterexample). -/
def c5OutPage : Page :=
  ⟨0, 100, 100, [⟨LINK_URI, ⟨0, 0, 150, 50⟩, "https://a", none, none⟩]⟩

/-- The link `extract_link` emits for `c5InPage` (claim C5 witness). -/
def c5Li : LinkInfo :=
  ⟨"uri", LinkTarget.str "https://a",
    ⟨Rat.divInt 1 20, Rat.divInt 1 20, Rat.divInt 3 10, Rat.divInt 1 4⟩⟩

/-- A remote-goto raw link whose `file` field is absent (claim C6). -/
def c6NoFileLink : RawLink := ⟨LINK_GOTOR, ⟨0, 0, 1, 1⟩, "", none, none⟩

/-- A page containing only `c6NoFileLink` (claim C6). -/
def c6Page : Page := ⟨0, 1, 1, [c6NoFileLink]⟩

/-- A remote-goto raw link with file `"x.pdf"` and 0-based target page 2
(claim C6 witness). -/
def c6FileLink : RawLink := ⟨LINK_GOTOR, ⟨0, 0, 1, 1⟩, "", some "x.pdf", some 2⟩

/-- A named-destination raw link resolving to page 3 (claim C7 witness). -/
def c7NamedLink : RawLink := ⟨LINK_NAMED, ⟨0, 0, 1, 1⟩, "", none, some 3⟩

/-- Vector-mode configuration with the default tool path (claim C9). -/
def c9Cfg : Config := ⟨true, "out.pptx", true, "auto", "inkscape"⟩

/-- A one-page document (claim C9). -/
def c9Doc : Doc := ⟨[plainPage]⟩

/-- External world in which the probe succeeds but every per-page
conversion exits with status 2 (claim C9). -/
def c9BadExt : Ext := ⟨0, fun _ => 2, fun _ => "page.svg", fun _ => "page.emf"⟩

/-- Raster-mode configuration with aspect-ratio spec `"0.001"`
(claim C10). -/
def c10Cfg : Config := ⟨true, "deck.pptx", false, "0.001", "inkscape"⟩

/-- A one-page document (claim C10). -/
def c10Doc : Doc := ⟨[plainPage]⟩

/-- Raster-mode configuration with aspect-ratio spec `"0.005"`
(claim C10 counterexample). -/
def c10bCfg : Config := ⟨true, "deck.pptx", false, "0.005", "inkscape"⟩

/-- The binary64 value of `float("0.001")`: `1152921504606847 / 2^60`
(CPython `(0.001).as_integer_ratio()`), used by the C10 witness. -/
def double001 : ℚ := Rat.divInt 1152921504606847 1152921504606846976

/-- The binary64 value of `float("0.005")`: `5764607523034235 / 2^60`
(CPython `(0.005).as_integer_ratio()`), strictly above `1/200`. -/
def double005 : ℚ := Rat.divInt 5764607523034235 1152921504606846976

/-! ## Theorems

First the bridge lemmas identifying the kernel-computable arithmetic with
the standard field operations, then helper lemmas, then one theorem per
claim (with witnesses and counterexamples). -/

theorem qadd_eq (a b : ℚ) : qadd a b = a + b := by
  rw [qadd, Rat.divInt_eq_div]
  conv_rhs => rw [← Rat.num_div_den a, ← Rat.num_div_den b]
  have ha : ((a.den : ℤ) : ℚ) ≠ 0 := by
    exact_mod_cast (Nat.cast_ne_zero (R := ℚ)).mpr a.den_nz
  have hb : ((b.den : ℤ) : ℚ) ≠ 0 := by
    exact_mod_cast (Nat.cast_ne_zero (R := ℚ)).mpr b.den_nz
  push_cast
  field_simp

theorem qmul_eq (a b : ℚ) : qmul a b = a * b := by
  rw [qmul, Rat.divInt_eq_div]
  conv_rhs => rw [← Rat.num_div_den a, ← Rat.num_div_den b]
  push_cast
  rw [div_mul_div_comm]

theorem qsub_eq (a b : ℚ) : qsub a b = a - b := by
  rw [qsub, qadd_eq, sub_eq_add_neg]

theorem qdiv_eq (a b : ℚ) : qdiv a b = a / b := by
  rcases eq_or_ne b 0 with hb | hb
  · subst hb
    rw [qdiv]
    simp [Rat.divInt_eq_div]
  · rw [qdiv, Rat.divInt_eq_div]
    conv_rhs => rw [← Rat.num_div_den a, ← Rat.num_div_den b]
    have hbn : (b.num : ℚ) ≠ 0 := by
      exact_mod_cast (Rat.num_ne_zero).mpr hb
    have ha : ((a.den : ℤ) : ℚ) ≠ 0 := by
      exact_mod_cast (Nat.cast_ne_zero (R := ℚ)).mpr a.den_nz
    have hbd : ((b.den : ℤ) : ℚ) ≠ 0 := by
      exact_mod_cast (Nat.cast_ne_zero (R := ℚ)).mpr b.den_nz
    push_cast
    field_simp

theorem qmin_eq (a b : ℚ) : qmin a b = min a b := by
  rw [qmin, min_def]

theorem qabs_eq (x : ℚ) : qabs x = |x| := by
  rw [qabs]
  rcases lt_or_le x 0 with h | h
  · rw [if_pos h, abs_of_neg h]
  · rw [if_neg (not_lt.mpr h), abs_of_nonneg h]

/-- Python `int()` agrees with the floor on nonnegative rationals. -/
theorem truncQ_eq_floor (q : ℚ) (h : 0 ≤ q) : truncQ q = ⌊q⌋ := by
  rw [truncQ, Int.tdiv_eq_ediv (Rat.num_nonneg.mpr h) (Int.ofNat_nonneg q.den),
    Rat.floor_def]

theorem optimalWidthQ_pos (q : ℚ) (hq : 0 < q) : 0 < optimalWidthQ q := by
  rw [optimalWidthQ, qmin_eq, qmul_eq, maxWidthEmu, maxHeightEmu]
  have h2 : (0 : ℚ) < q * 5143500 := by positivity
  exact lt_min (by norm_num) h2

theorem optimalWidthQ_le_maxw (q : ℚ) : optimalWidthQ q ≤ 9144000 := by
  rw [optimalWidthQ, qmin_eq, maxWidthEmu]
  exact min_le_left _ _

theorem optimalWidthQ_le_mul (q : ℚ) : optimalWidthQ q ≤ q * 5143500 := by
  rw [optimalWidthQ, qmin_eq, qmul_eq, maxHeightEmu]
  exact min_le_right _ _

/--
Claim C4: the slide dimensions are `width = min(9144000, ratio*5143500)`
and `height = width/ratio` (the untruncated width), both truncated to
integers; hence `width ≤ 9144000`, `height ≤ 5143500`, and both truncated
values are within one truncation step of the exact ones
(`height*ratio ≤ optimal_width < (height+1)*ratio` and
`width ≤ optimal_width < width+1`), so `width/height` equals the ratio
within integer-truncation rounding.  Ratio `16/9` yields exactly
`(9144000, 5143500)` and ratio `4/3` yields exactly `(6858000, 5143500)`.
-/
theorem slide_dimensions_spec (q : ℚ) (hq : 0 < q) :
    slideWidth q ≤ 9144000 ∧
    slideHeight q ≤ 5143500 ∧
    ((slideHeight q : ℚ) * q ≤ optimalWidthQ q ∧
      optimalWidthQ q < ((slideHeight q : ℚ) + 1) * q) ∧
    ((slideWidth q : ℚ) ≤ optimalWidthQ q ∧
      optimalWidthQ q < (slideWidth q : ℚ) + 1) ∧
    (slideWidth (16 / 9 : ℚ) = 9144000 ∧ slideHeight (16 / 9 : ℚ) = 5143500) ∧
    (slideWidth (4 / 3 : ℚ) = 6858000 ∧ slideHeight (4 / 3 : ℚ) = 5143500) := by
  have hm0 : 0 ≤ optimalWidthQ q := (optimalWidthQ_pos q hq).le
  have hdiv0 : 0 ≤ optimalWidthQ q / q := by positivity
  have hW : slideWidth q = ⌊optimalWidthQ q⌋ := truncQ_eq_floor _ hm0
  have hH : slideHeight q = ⌊optimalWidthQ q / q⌋ := by
    rw [slideHeight, qdiv_eq]
    exact truncQ_eq_floor _ hdiv0
  have hdivle : optimalWidthQ q / q ≤ 5143500 := by
    rw [div_le_iff₀ hq]
    calc optimalWidthQ q ≤ q * 5143500 := optimalWidthQ_le_mul q
    _ = 5143500 * q := by ring
  refine ⟨?_, ?_, ⟨?_, ?_⟩, ⟨?_, ?_⟩, ?_, ?_⟩
  · rw [hW]
    have : (⌊optimalWidthQ q⌋ : ℚ) ≤ 9144000 :=
      le_trans (Int.floor_le _) (optimalWidthQ_le_maxw q)
    exact_mod_cast this
  · rw [hH]
    have : (⌊optimalWidthQ q / q⌋ : ℚ) ≤ 5143500 :=
      le_trans (Int.floor_le _) hdivle
    exact_mod_cast this
  · rw [hH]
    rw [← le_div_iff₀ hq]
    exact Int.floor_le _
  · rw [hH]
    rw [← div_lt_iff₀ hq]
    exact Int.lt_floor_add_one _
  · rw [hW]
    exact Int.floor_le _
  · rw [hW]
    exact Int.lt_floor_add_one _
  · have h169 : (16 / 9 : ℚ) = Rat.divInt 16 9 := by
      rw [Rat.divInt_eq_div]
      norm_num
    rw [h169]
    constructor <;> decide
  · have h43 : (4 / 3 : ℚ) = Rat.divInt 4 3 := by
      rw [Rat.divInt_eq_div]
      norm_num
    rw [h43]
    constructor <;> decide

/-- Witness for C4 at the concrete ratio `16/9`. -/
theorem slide_dimensions_spec_witness :
    slideWidth (16 / 9 : ℚ) ≤ 9144000 ∧ slideHeight (16 / 9 : ℚ) ≤ 5143500 :=
  ⟨(slide_dimensions_spec (16 / 9) (by norm_num)).1,
   (slide_dimensions_spec (16 / 9) (by norm_num)).2.1⟩

/-- Every link tuple retained by `classifyLink` carries the normalized
rectangle of its raw annotation. -/
theorem classifyLink_rect {n : ℕ} {w h : ℚ} {l : RawLink} {li : LinkInfo}
    (hc : (classifyLink n w h l).1 = some li) :
    li.rect = normRect l.fromRect w h := by
  unfold classifyLink at hc
  dsimp only at hc
  repeat' split at hc
  all_goals try exact Option.noConfusion hc
  all_goals (injection hc with h1; rw [← h1])

/--
Claim C5 (amended): every link emitted by `extract_link` carries its raw
rectangle divided coordinate-wise by the page width/height, with no
clamping; therefore the normalized coordinates satisfy
`0 ≤ x0 ≤ x1 ≤ 1` and `0 ≤ y0 ≤ y1 ≤ 1` exactly when the raw annotation
rectangle is ordered and contained in the page rectangle — which PyMuPDF
does not guarantee for arbitrary documents (see the counterexample).
-/
theorem extract_link_rects_unit_square (p : Page) (hw : 0 < p.width) (hh : 0 < p.height)
    (hin : ∀ l ∈ p.links,
      0 ≤ l.fromRect.x0 ∧ l.fromRect.x0 ≤ l.fromRect.x1 ∧ l.fromRect.x1 ≤ p.width ∧
      0 ≤ l.fromRect.y0 ∧ l.fromRect.y0 ≤ l.fromRect.y1 ∧ l.fromRect.y1 ≤ p.height) :
    ∀ li ∈ (extractLink p).1,
      0 ≤ li.rect.x0 ∧ li.rect.x0 ≤ li.rect.x1 ∧ li.rect.x1 ≤ 1 ∧
      0 ≤ li.rect.y0 ∧ li.rect.y0 ≤ li.rect.y1 ∧ li.rect.y1 ≤ 1 := by
  intro li hli
  rw [extractLink] at hli
  dsimp only at hli
  obtain ⟨l, hl, hcl⟩ := List.mem_filterMap.mp hli
  have hrect := classifyLink_rect hcl
  obtain ⟨h1, h2, h3, h4, h5, h6⟩ := hin l hl
  rw [hrect, normRect]
  dsimp only
  rw [qdiv_eq, qdiv_eq, qdiv_eq, qdiv_eq]
  refine ⟨div_nonneg h1 hw.le, ?_, (div_le_one hw).mpr h3,
    div_nonneg h4 hh.le, ?_, (div_le_one hh).mpr h6⟩
  · gcongr
  · gcongr

/-- Witness for C5's amended statement, at a page whose single link
annotation lies inside the page rectangle. -/
theorem extract_link_rects_unit_square_witness :
    0 ≤ c5Li.rect.x0 ∧ c5Li.rect.x0 ≤ c5Li.rect.x1 ∧ c5Li.rect.x1 ≤ 1 ∧
    0 ≤ c5Li.rect.y0 ∧ c5Li.rect.y0 ≤ c5Li.rect.y1 ∧ c5Li.rect.y1 ≤ 1 :=
  extract_link_rects_unit_square c5InPage (by decide) (by decide) (by decide)
    c5Li (by decide)

/--
Claim C5 counterexample: on a 100×100 page, a URI annotation with raw
rectangle (0, 0, 150, 50) — which PyMuPDF can supply, since annotation
rectangles are not clipped to the page — is emitted with normalized
x1 = 3/2 > 1, violating the claimed invariant.
-/
theorem extract_link_rect_escapes_unit_square :
    (extractLink c5OutPage).1 =
      [⟨"uri", LinkTarget.str "https://a", ⟨0, 0, Rat.divInt 3 2, Rat.divInt 1 2⟩⟩] ∧
    ¬ (Rat.divInt 3 2 ≤ (1 : ℚ)) := by
  decide

/--
Claim C6 (amended): a remote-goto (`LINK_GOTOR`) annotation ALWAYS
produces a `"gotor"` link — the source applies no condition on the file
field, defaulting it to the empty string — with target equal to the file
reference suffixed by `"#page=" + (target page + 1)` exactly when the
0-based target page is `≥ 0`; no diagnostic is emitted.
-/
theorem gotor_classification (n : ℕ) (w h : ℚ) (l : RawLink) (hk : l.kind = LINK_GOTOR) :
    (classifyLink n w h l).1 = some ⟨"gotor",
      LinkTarget.str (if 0 ≤ l.page.getD (-1) then
          l.file.getD "" ++ "#page=" ++ toString (l.page.getD (-1) + 1)
        else l.file.getD ""),
      normRect l.fromRect w h⟩ ∧
    (classifyLink n w h l).2 = none := by
  unfold classifyLink
  rw [hk]
  exact ⟨rfl, rfl⟩

/-- Witness for C6's amended statement: file `"x.pdf"`, 0-based target
page 2, normalizes to target `"x.pdf#page=3"` (the spec's own example). -/
theorem gotor_classification_witness :
    (classifyLink 0 1 1 c6FileLink).1 =
      some ⟨"gotor", LinkTarget.str "x.pdf#page=3", ⟨0, 0, 1, 1⟩⟩ := by
  have h := (gotor_classification 0 1 1 c6FileLink (by decide)).1
  rw [h]
  decide

/--
Claim C6 counterexample: a remote-goto annotation whose file field is
ABSENT still produces a `"gotor"` link (with empty target string), so
"produces a GotoRemote link exactly when its file field is present" fails
in the only-if direction.
-/
theorem gotor_without_file_emitted :
    c6NoFileLink.file = none ∧
    (extractLink c6Page).1 = [⟨"gotor", LinkTarget.str "", ⟨0, 0, 1, 1⟩⟩] := by
  decide

/--
Claim C7: a named-destination (`LINK_NAMED`) annotation is retained as a
`"goto"` link if and only if its resolved page index is `≥ 0` and differs
from the current page's index; otherwise it is dropped with no diagnostic
(the warning channel stays empty either way).
-/
theorem named_destination_classification (n : ℕ) (w h : ℚ) (l : RawLink)
    (hk : l.kind = LINK_NAMED) :
    (classifyLink n w h l).2 = none ∧
    (classifyLink n w h l).1 =
      (if 0 ≤ l.page.getD (-1) ∧ l.page.getD (-1) ≠ (n : ℤ) then
        some ⟨"goto", LinkTarget.page (l.page.getD (-1)), normRect l.fromRect w h⟩
      else none) := by
  unfold classifyLink
  rw [hk]
  norm_num [LINK_URI, LINK_GOTO, LINK_GOTOR, LINK_NAMED]
  constructor
  · split <;> rfl
  · split <;> rfl

/-- Witness for C7: a named destination resolving to page 3 from page 0
is retained as a `"goto"` link, with no warning. -/
theorem named_destination_classification_witness :
    (classifyLink 0 1 1 c7NamedLink).2 = none ∧
    (classifyLink 0 1 1 c7NamedLink).1 =
      some ⟨"goto", LinkTarget.page 3, ⟨0, 0, 1, 1⟩⟩ := by
  have h := named_destination_classification 0 1 1 c7NamedLink (by decide)
  exact ⟨h.1, by rw [h.2]; decide⟩

/--
Claim C8: after composing a slide, no placeholder shape carrying a text
frame remains, whatever placeholders the template supplied (the removal
loop filters every text-frame shape before the picture and overlays are
added); and with the default template's two text-frame placeholders, a
page with zero retained links yields exactly one shape — the background
picture — and zero overlays.
-/
theorem compose_slide_no_text_placeholders :
    (∀ (template : List Shape) (links : List LinkInfo) (s : Shape),
      s ∈ composeSlide template links → s.isPlaceholder = true → s.hasTextFrame = false) ∧
    composeSlide defaultTemplateShapes [] = [Shape.picture] := by
  constructor
  · intro template links s hs hp
    rw [composeSlide] at hs
    rcases List.mem_append.mp hs with hs | hs
    · rcases List.mem_append.mp hs with hs | hs
      · have hf := (List.mem_filter.mp hs).2
        simpa using hf
      · simp only [List.mem_singleton] at hs
        rw [hs]
        rfl
    · obtain ⟨li, _, hs⟩ := List.mem_map.mp hs
      rw [← hs] at hp
      exact absurd hp (by simp [Shape.isPlaceholder])
  · decide

/-- Witness for C8: a template consisting of a single placeholder without
a text frame — that placeholder survives composition and indeed carries
no text frame. -/
theorem compose_slide_no_text_placeholders_witness :
    Shape.hasTextFrame (Shape.placeholder false) = false :=
  compose_slide_no_text_placeholders.1 [Shape.placeholder false] []
    (Shape.placeholder false) (by decide) (by decide)

/-- A successful page loop composes exactly the input pages, in order. -/
theorem runPages_ok_slides (svg : Bool) (ext : Ext) :
    ∀ (pages : List Page) (i : ℕ) (res : List (List Shape) × List (List String)),
      runPages svg ext i pages = Except.ok res → res.1 = pages.map composedSlide := by
  intro pages
  induction pages with
  | nil =>
    intro i res hr
    rw [runPages] at hr
    injection hr with h
    rw [← h]
    rfl
  | cons p rest ih =>
    intro i res hr
    rw [runPages] at hr
    split at hr
    · exact Except.noConfusion hr
    · cases hrec : runPages svg ext (i + 1) rest with
      | error e =>
        rw [hrec] at hr
        exact Except.noConfusion hr
      | ok pr =>
        rw [hrec] at hr
        obtain ⟨slides, invs⟩ := pr
        injection hr with h
        rw [← h]
        dsimp only
        rw [List.map_cons]
        rw [show slides = rest.map composedSlide from ih (i + 1) (slides, invs) hrec]

/-- A successful page loop implies, in vector mode, that every page's
conversion process exited with status 0. -/
theorem runPages_ok_convert (svg : Bool) (ext : Ext) :
    ∀ (pages : List Page) (i : ℕ) (res : List (List Shape) × List (List String)),
      runPages svg ext i pages = Except.ok res → svg = true →
      ∀ j, j < pages.length → ext.convertExit (i + j) = 0 := by
  intro pages
  induction pages with
  | nil =>
    intro i res _ _ j hj
    exact absurd hj (by simp)
  | cons p rest ih =>
    intro i res hr hsvg j hj
    rw [runPages] at hr
    split at hr
    · exact Except.noConfusion hr
    · rename_i hcond
      cases j with
      | zero =>
        by_contra hne
        exact hcond ⟨hsvg, by simpa using hne⟩
      | succ j' =>
        cases hrec : runPages svg ext (i + 1) rest with
        | error e =>
          rw [hrec] at hr
          exact Except.noConfusion hr
        | ok pr =>
          have hj' : j' < rest.length := by
            simpa using Nat.lt_of_succ_lt_succ (by simpa using hj)
          have hc := ih (i + 1) pr hrec hsvg j' hj'
          have heq : i + (j' + 1) = (i + 1) + j' := by omega
          rw [heq]
          exact hc

/-- Inversion of a successful run: the first page loaded, the resolved
ratio, the successful page loop, and the shape of the output. -/
theorem run_ok_inv (cfg : Config) (doc : Doc) (ext : Ext) (out : RunOutput)
    (h : run cfg doc ext = Except.ok out) :
    ∃ p0 q warn slides invs,
      doc.pages.head? = some p0 ∧
      resolveAspect cfg.aspectRatio p0.width p0.height = Except.ok (q, warn) ∧
      runPages cfg.svg ext 0 doc.pages = Except.ok (slides, invs) ∧
      out = ⟨slideWidth q, slideHeight q, slides,
        (if cfg.svg = true then [preflightCmd cfg.inkscapePath] else []) ++ invs,
        [cfg.output], warn⟩ := by
  rw [run] at h
  split at h
  · exact Except.noConfusion h
  split at h
  · exact Except.noConfusion h
  cases hp : doc.pages.head? with
  | none =>
    rw [hp] at h
    exact Except.noConfusion h
  | some p0 =>
    rw [hp] at h
    dsimp only at h
    cases hres : resolveAspect cfg.aspectRatio p0.width p0.height with
    | error e =>
      rw [hres] at h
      exact Except.noConfusion h
    | ok qw =>
      rw [hres] at h
      obtain ⟨q, warn⟩ := qw
      cases hrp : runPages cfg.svg ext 0 doc.pages with
      | error e =>
        rw [hrp] at h
        exact Except.noConfusion h
      | ok si =>
        rw [hrp] at h
        obtain ⟨slides, invs⟩ := si
        injection h with h
        exact ⟨p0, q, warn, slides, invs, rfl, hres, rfl, h.symm⟩

/--
Claim C1 (amended): for every input document with at least one page, a
successful run produces exactly `page_count` slides, the `i`-th composed
from page `i` (pages are processed in order `0..page_count-1`).  A
zero-page document never reaches slide allocation: `pdf.load_page(0)` at
source line 177 raises `ValueError` first, so no output document is
produced — see the counterexample.
-/
theorem run_slide_count (cfg : Config) (doc : Doc) (ext : Ext) (out : RunOutput)
    (hn : 1 ≤ doc.pages.length) (h : run cfg doc ext = Except.ok out) :
    out.slides.length = doc.pages.length ∧
    out.slides = doc.pages.map composedSlide := by
  obtain ⟨p0, q, warn, slides, invs, _, _, hrp, hout⟩ := run_ok_inv cfg doc ext out h
  have hs := runPages_ok_slides cfg.svg ext doc.pages 0 (slides, invs) hrp
  rw [hout]
  dsimp only at hs ⊢
  rw [hs]
  exact ⟨List.length_map _ _, rfl⟩

/-- Witness for C1's amended statement on a concrete two-page document. -/
theorem run_slide_count_witness :
    c1Out.slides.length = c1Doc.pages.length ∧
    c1Out.slides = c1Doc.pages.map composedSlide :=
  run_slide_count c1Cfg c1Doc okExt c1Out (by decide) (by decide)

/--
Claim C1 counterexample: on a zero-page document the run aborts while
loading page 0 for aspect-ratio resolution (source line 177), so no
output document — and in particular no empty slide deck — is produced.
-/
theorem run_zero_page_aborts :
    run c1Cfg c1EmptyDoc okExt = Except.error RunErr.emptyDocument := by
  decide

/--
Claim C2 (code bug): in vector mode the one-time pre-flight probe runs
the executable at the configured `--inkscape-path`, but every per-page
conversion invokes the hard-coded literal `"inkscape"` (source line 224)
— a different executable whenever a non-default path is configured.
Evaluated at configured path `/opt/inkscape/bin/inkscape` on a one-page
document: the run records the probe at the configured path followed by a
per-page conversion command whose executable is `"inkscape"`.
-/
theorem perpage_conversion_ignores_configured_path :
    (run c2Cfg c2Doc okExt).map RunOutput.invocations =
      Except.ok [["/opt/inkscape/bin/inkscape", "--version"],
        ["inkscape", "page.svg", "--export-type=emf", "--export-filename", "page.emf"]] ∧
    c2Cfg.inkscapePath ≠ "inkscape" := by
  decide

/--
Claim C3 (amended): every ASCII aspect-ratio spec that is not `"auto"`,
does not match the regex `^(\d+):(\d+)$` under `re.match` (`$` also
matches before one trailing newline, and the regex accepts zero
components), and is not accepted by Python `float()` makes the run fail
with the invalid-format error before any per-page work; but a string
matching the regex with `H = 0`, such as `"16:0"`, instead raises an
uncaught `ZeroDivisionError` (exit status 1 with a traceback, not the
invalid-format message) — see the counterexample.  Non-ASCII specs are
outside the modelled domain (`\d` and `float()` also accept Unicode
decimal digits).
-/
theorem unparseable_spec_fails_format (cfg : Config) (doc : Doc) (ext : Ext) (p0 : Page)
    (hascii : ∀ c ∈ cfg.aspectRatio.data, c.toNat ≤ 127)
    (hin : cfg.inputExists = true) (hprobe : cfg.svg = true → ext.probeExit = 0)
    (hp0 : doc.pages.head? = some p0)
    (hauto : cfg.aspectRatio ≠ "auto")
    (hwh : matchWH cfg.aspectRatio = none)
    (hfloat : pyFloatParse cfg.aspectRatio = none) :
    run cfg doc ext = Except.error RunErr.invalidAspectRatioFormat := by
  have hres : resolveAspect cfg.aspectRatio p0.width p0.height =
      Except.error RunErr.invalidAspectRatioFormat := by
    unfold resolveAspect
    rw [if_neg hauto, hwh, hfloat]
  rw [run]
  rw [if_neg (by simp [hin])]
  rw [if_neg (fun hc => hc.2 (hprobe hc.1))]
  rw [hp0]
  dsimp only
  rw [hres]

/-- Witness for C3's amended statement at the spec string `"abc"`. -/
theorem unparseable_spec_fails_format_witness :
    run c3wCfg c3Doc okExt = Except.error RunErr.invalidAspectRatioFormat :=
  unparseable_spec_fails_format c3wCfg c3Doc okExt plainPage (by decide) rfl
    (by decide) (by decide) (by decide) (by decide) (by decide)

/--
Claim C3 counterexample: the spec string `"16:0"` — not a `W:H` pair with
positive components and not a decimal — matches the source regex, reaches
the division `16/0` at source line 183, and aborts with an uncaught
`ZeroDivisionError`, not with the invalid-format failure the claim
requires.
-/
theorem ratio_16_0_zero_division :
    run c3Cfg c3Doc okExt = Except.error RunErr.zeroDivisionError ∧
    RunErr.zeroDivisionError ≠ RunErr.invalidAspectRatioFormat := by
  decide

/--
Claim C9: a run either completes all pages and persists the output
document exactly once at the end (the sole write, to the destination
path, with one slide per page), or aborts on the first fatal error with
nothing written; in particular, in vector mode a non-zero exit from any
page's conversion process makes a successful outcome impossible.
-/
theorem run_all_or_nothing (cfg : Config) (doc : Doc) (ext : Ext) :
    (∀ out : RunOutput, run cfg doc ext = Except.ok out →
      out.writes = [cfg.output] ∧ out.slides = doc.pages.map composedSlide) ∧
    (cfg.svg = true → ∀ i, i < doc.pages.length → ext.convertExit i ≠ 0 →
      ¬ ∃ out : RunOutput, run cfg doc ext = Except.ok out) := by
  constructor
  · intro out h
    obtain ⟨p0, q, warn, slides, invs, _, _, hrp, hout⟩ := run_ok_inv cfg doc ext out h
    have hs := runPages_ok_slides cfg.svg ext doc.pages 0 (slides, invs) hrp
    rw [hout]
    exact ⟨rfl, hs⟩
  · rintro hsvg i hi hne ⟨out, h⟩
    obtain ⟨p0, q, warn, slides, invs, _, _, hrp, _⟩ := run_ok_inv cfg doc ext out h
    exact hne (by
      simpa using runPages_ok_convert cfg.svg ext doc.pages 0 (slides, invs) hrp hsvg i hi)

/-- Witness for C9: with every per-page conversion exiting with status 2,
the vector-mode run cannot succeed (and hence never reaches the save). -/
theorem run_all_or_nothing_witness :
    exceptIsOk (run c9Cfg c9Doc c9BadExt) = false := by
  have h := (run_all_or_nothing c9Cfg c9Doc c9BadExt).2 rfl 0 (by decide) (by decide)
  cases hr : run c9Cfg c9Doc c9BadExt with
  | ok o => exact absurd ⟨o, hr⟩ h
  | error e => rfl

/--
Claim C10 (amended): the positivity check at source lines 198-200 is
applied to the rational AFTER `limit_denominator(100)` of the PARSED
BINARY64 VALUE, not to the value the user supplied: for every decimal
spec whose parsed double is strictly positive but whose bounded-rational
form with denominator at most 100 is 0, the run fails with the
non-positive-aspect-ratio error.  The condition is on the double, not on
the exact decimal value: `"0.005"` has exact value `1/200`, whose bounded
form is 0, yet its double rounds above `1/200`, `limit_denominator`
returns `1/100`, and the run proceeds — see the counterexample.
-/
theorem positivity_checked_after_rounding (cfg : Config) (doc : Doc) (ext : Ext)
    (p0 : Page) (q0 pr : ℚ)
    (hin : cfg.inputExists = true) (hprobe : cfg.svg = true → ext.probeExit = 0)
    (hp0 : doc.pages.head? = some p0) (hph : ¬ p0.height = 0)
    (hpr : roundToDouble (qdiv p0.width p0.height) = some pr)
    (hauto : cfg.aspectRatio ≠ "auto")
    (hwh : matchWH cfg.aspectRatio = none)
    (hfloat : pyFloatParse cfg.aspectRatio = some (some q0))
    (hpos : 0 < q0)
    (hround : limitDenominator q0 100 = 0) :
    run cfg doc ext = Except.error RunErr.nonPositiveAspectRatio := by
  have hres : resolveAspect cfg.aspectRatio p0.width p0.height =
      Except.error RunErr.nonPositiveAspectRatio := by
    unfold resolveAspect
    rw [if_neg hauto, hwh, hfloat]
    dsimp only
    rw [if_neg hph, hpr]
    dsimp only
    rw [hround]
    rw [if_pos (le_refl (0 : ℚ))]
  rw [run]
  rw [if_neg (by simp [hin])]
  rw [if_neg (fun hc => hc.2 (hprobe hc.1))]
  rw [hp0]
  dsimp only
  rw [hres]

/-- Witness for C10's amended statement at the spec string `"0.001"`:
parsed double `1152921504606847/2^60`, positive, taken by
`limit_denominator(100)` to `0`. -/
theorem positivity_checked_after_rounding_witness :
    run c10Cfg c10Doc okExt = Except.error RunErr.nonPositiveAspectRatio :=
  positivity_checked_after_rounding c10Cfg c10Doc okExt plainPage double001 1
    rfl (by decide) (by decide) (by decide) (by decide) (by decide) (by decide)
    (by decide) (by decide) (by decide)

/--
Claim C10 counterexample: the spec `"0.005"` has exact decimal value
`1/200` — strictly positive with bounded-rational form 0, so the claim
(read on the supplied value) predicts a NonPositiveAspectRatio failure —
but `float("0.005")` is the double `5764607523034235/2^60 > 1/200`, its
`limit_denominator(100)` is `1/100 > 0`, and the run proceeds to a
successful completion.
-/
theorem positivity_boundary_proceeds :
    pyNumeric "0.005".data = some (Rat.divInt 1 200) ∧
    limitDenominator (Rat.divInt 1 200) 100 = 0 ∧
    pyFloatParse "0.005" = some (some double005) ∧
    Rat.divInt 1 200 < double005 ∧
    run c10bCfg c10Doc okExt ≠ Except.error RunErr.nonPositiveAspectRatio ∧
    exceptIsOk (run c10bCfg c10Doc okExt) = true := by
  decide

end Pdf2Pptx
